import Mathlib

/-!
Shallow embedding of `posts.py`, a structural-design script that
selects a hollow structural section (HSS) column from a fixed catalog
(`select_hss_size`), sizes the cap plate, bearing plates and weld for a
level (`calculate_plates`), and processes a stack of levels with
cumulative load accounting (`process_column_stack`).

Python floats are modelled as real numbers; `math.sqrt` and `** 0.5`
as `Real.sqrt`; `math.ceil` as `Int.ceil`; Python's `round` (banker's
rounding, half to even) as `pyRound` below.  The dictionaries returned
by `calculate_plates` are modelled by the structure `PlateDesign`
(the numeric values behind the formatted strings), with every condition
the Python body raises and catches (the two explicit `ValueError`s, the
`ZeroDivisionError`s of the zero-divisor divisions, and the `TypeError`
from `round()` on the complex value of a negative radicand `** 0.5`)
represented by `Except.error`.
-/

namespace Posts

noncomputable section

/-- Python's built-in `round` to an integer: round half to even. -/
def pyRound (x : ℝ) : ℤ :=
  if x - ⌊x⌋ = 1 / 2 then (if 2 ∣ ⌊x⌋ then ⌊x⌋ else ⌊x⌋ + 1) else round x

/-- Evaluation rule for `pyRound` away from ties: any real strictly within
half a unit of the integer `n` rounds to `n`. -/
theorem pyRound_eq {x : ℝ} {n : ℤ} (h1 : (n : ℝ) - 1 / 2 < x) (h2 : x < (n : ℝ) + 1 / 2) :
    pyRound x = n := by
  unfold pyRound
  have hfl : ⌊x⌋ = n ∨ ⌊x⌋ = n - 1 := by
    have hlb : (n : ℝ) < (⌊x⌋ : ℝ) + 2 := by
      linarith [Int.lt_floor_add_one x]
    have hub : (⌊x⌋ : ℝ) < (n : ℝ) + 1 := by
      linarith [Int.floor_le x]
    have h1' : (n : ℤ) < ⌊x⌋ + 2 := by exact_mod_cast hlb
    have h2' : ⌊x⌋ < n + 1 := by exact_mod_cast hub
    omega
  by_cases htie : x - ⌊x⌋ = 1 / 2
  · exfalso
    rcases hfl with h | h
    · rw [h] at htie
      have : x = (n : ℝ) + 1 / 2 := by linarith
      linarith
    · rw [h] at htie
      push_cast at htie
      have : x = (n : ℝ) - 1 / 2 := by linarith
      linarith
  · rw [if_neg htie, round_eq]
    have ha : (n : ℝ) ≤ x + 1 / 2 := by linarith
    have hb : x + 1 / 2 < (n : ℝ) + 1 := by linarith
    exact Int.floor_eq_iff.mpr ⟨by exact_mod_cast ha, by exact_mod_cast hb⟩

/-- `pyRound` never rounds down by more than half a unit. -/
theorem pyRound_ge (x : ℝ) : x - 1 / 2 ≤ (pyRound x : ℝ) := by
  unfold pyRound
  by_cases htie : x - ⌊x⌋ = 1 / 2
  · rw [if_pos htie]
    by_cases h2 : 2 ∣ ⌊x⌋
    · rw [if_pos h2]; linarith
    · rw [if_neg h2]; push_cast; linarith
  · rw [if_neg htie, round_eq]
    have := Int.lt_floor_add_one (x + 1 / 2)
    push_cast at this ⊢
    linarith

/-- `pyRound` never rounds up by more than half a unit. -/
theorem pyRound_le (x : ℝ) : (pyRound x : ℝ) ≤ x + 1 / 2 := by
  unfold pyRound
  by_cases htie : x - ⌊x⌋ = 1 / 2
  · rw [if_pos htie]
    by_cases h2 : 2 ∣ ⌊x⌋
    · rw [if_pos h2]; linarith [Int.floor_le x]
    · rw [if_neg h2]; push_cast; linarith [Int.floor_le x]
  · rw [if_neg htie, round_eq]
    have := Int.floor_le (x + 1 / 2)
    push_cast at this ⊢
    linarith

/-- Lower bound for a square root from a squared comparison. -/
theorem lt_sqrt_of_sq_lt {a x : ℝ} (ha : 0 ≤ a) (h : a ^ 2 < x) : a < Real.sqrt x := by
  have h0 : 0 ≤ x := le_trans (sq_nonneg a) h.le
  have hs := Real.sq_sqrt h0
  nlinarith [Real.sqrt_nonneg x]

/-- Upper bound for a square root from a squared comparison. -/
theorem sqrt_lt_of_lt_sq {x b : ℝ} (hb : 0 < b) (h : x < b ^ 2) : Real.sqrt x < b := by
  rcases le_or_lt x 0 with hx | hx
  · rw [Real.sqrt_eq_zero_of_nonpos hx]
    exact hb
  · have hs := Real.sq_sqrt hx.le
    nlinarith [Real.sqrt_nonneg x]

/-- One catalog entry of `hss_sizes` in `select_hss_size`:
designation, area `A` (in²), section modulus `S` (in³), outer width `B` (in),
and the nominal weight, which the logic never reads. -/
structure HSS where
  name : String
  A : ℝ
  S : ℝ
  B : ℝ
  weight : ℝ

/-- The fixed 5-entry candidate list `hss_sizes` from `select_hss_size`. -/
def hss_sizes : List HSS :=
  [⟨"HSS6x6x3/16", 4.30, 10.3, 6.0, 12.5⟩,
   ⟨"HSS8x8x3/16", 5.75, 17.4, 8.0, 16.8⟩,
   ⟨"HSS8x8x1/4", 7.56, 22.4, 8.0, 22.0⟩,
   ⟨"HSS10x10x1/4", 9.52, 35.2, 10.0, 27.5⟩,
   ⟨"HSS12x12x1/4", 11.5, 50.8, 12.0, 33.0⟩]

/-- Effective length factor `K = 1.0` from `select_hss_size`. -/
def K : ℝ := 1.0

/-- Empirical radius-of-gyration factor `r_factor = 0.4` from `select_hss_size`. -/
def r_factor : ℝ := 0.4

/-- `slenderness = K * L / (r_factor * math.sqrt(A))` from `select_hss_size`. -/
def slenderness (L A : ℝ) : ℝ := K * L / (r_factor * Real.sqrt A)

/-- The combined interaction ratio computed in `select_hss_size`:
`P_total / (phi_c*F_y*A) + beam_load*(B/2 - beam_width/2) / (phi_c*F_y*S)`. -/
def interRatio (P_total beam_load beam_width F_y phi_c : ℝ) (c : HSS) : ℝ :=
  P_total / (phi_c * F_y * c.A) +
    beam_load * (c.B / 2 - beam_width / 2) / (phi_c * F_y * c.S)

/-- A candidate is accepted by the loop body of `select_hss_size`:
it survives the slenderness rejection and meets the interaction margin. -/
def passes (P_total L beam_load beam_width F_y phi_c : ℝ) (c : HSS) : Prop :=
  slenderness L c.A ≤ 200 ∧ interRatio P_total beam_load beam_width F_y phi_c c ≤ 0.9

/-- A candidate is skipped by the loop body of `select_hss_size`:
slenderness exceeds 200 or the interaction ratio exceeds 0.9. -/
def fails (P_total L beam_load beam_width F_y phi_c : ℝ) (c : HSS) : Prop :=
  slenderness L c.A > 200 ∨ interRatio P_total beam_load beam_width F_y phi_c c > 0.9

/-- The search loop of `select_hss_size` over an arbitrary remaining
candidate list: skip on slenderness > 200, accept on interaction ≤ 0.9. -/
def selectFrom (P_total L beam_load beam_width F_y phi_c : ℝ) :
    List HSS → Option (String × ℝ × ℝ × ℝ)
  | [] => none
  | c :: rest =>
    if slenderness L c.A > 200 then
      selectFrom P_total L beam_load beam_width F_y phi_c rest
    else if interRatio P_total beam_load beam_width F_y phi_c c ≤ 0.9 then
      some (c.name, c.A, c.S, c.B)
    else
      selectFrom P_total L beam_load beam_width F_y phi_c rest

/-- `select_hss_size` from `posts.py`: the Python `(None, None, None, None)`
return is modelled by `none`, a found section by `some (hss, A, S, B_hss)`. -/
def select_hss_size (P_total L beam_load beam_width F_y phi_c : ℝ) :
    Option (String × ℝ × ℝ × ℝ) :=
  selectFrom P_total L beam_load beam_width F_y phi_c hss_sizes

/-- Numeric content of the success dictionary returned by
`calculate_plates`: cap plate `B x N x t_cap`, two bearing plates
`bearing_width x bearing_height x t_bearing`, the verified LVL bearing
stress, and the weld size. -/
structure PlateDesign where
  capB : ℝ
  capN : ℝ
  t_cap : ℝ
  bearing_width : ℝ
  bearing_height : ℝ
  t_bearing : ℝ
  bearing_stress : ℝ
  weld_size : ℝ

/-- Bearing length `N` from `calculate_plates`:
`N = A_bearing / beam_width` with `A_bearing = (P_beam/load_factor)*1000/lvl_bearing`,
floored at `B_hss`, then `ceil(N*4)/4`. -/
def N_val (P_beam beam_width B_hss lvl_bearing load_factor : ℝ) : ℝ :=
  (⌈max (P_beam / load_factor * 1000 / lvl_bearing / beam_width) B_hss * 4⌉ : ℝ) / 4

/-- Cap-plate width `B = max(B_hss + 2, beam_width + 2)` from `calculate_plates`. -/
def B_val (B_hss beam_width : ℝ) : ℝ := max (B_hss + 2) (beam_width + 2)

/-- Effective cantilever length `l = max(m, n, n_ecc)` from `calculate_plates`,
with `m = (B - 0.95*d)/2` (`d = B_hss`), `n = (B - 0.8*beam_width)/2`, and
`n_ecc = max(B_hss - (beam_offset + beam_width), beam_offset + beam_width/2)`. -/
def l_val (B_hss beam_width beam_offset : ℝ) : ℝ :=
  max (max ((B_val B_hss beam_width - 0.95 * B_hss) / 2)
           ((B_val B_hss beam_width - 0.8 * beam_width) / 2))
      (max (B_hss - (beam_offset + beam_width)) (beam_offset + beam_width / 2))

/-- The raw (unrounded) cap-plate thickness from `calculate_plates`:
`l * ((2*(P_beam+P_upper)) / (phi*F_y*B*N)) ** 0.5`. -/
def t_cap_raw (P_beam P_upper B_hss beam_width beam_offset lvl_bearing F_y phi load_factor : ℝ) : ℝ :=
  l_val B_hss beam_width beam_offset *
    Real.sqrt (2 * (P_beam + P_upper) /
      (phi * F_y * B_val B_hss beam_width * N_val P_beam beam_width B_hss lvl_bearing load_factor))

/-- The rounding applied to the cap-plate thickness in `calculate_plates`:
`t = max(round(raw*8)/8, 0.375)`, then `if t < raw: t += 0.125`. -/
def roundCap (raw : ℝ) : ℝ :=
  let t := max ((pyRound (raw * 8) : ℝ) / 8) 0.375
  if t < raw then t + 0.125 else t

/-- The rounding applied to the resized bearing-plate thickness in
`calculate_plates`: `t = round(raw*8)/8`, then `if t < raw: t += 0.125`. -/
def roundBearing (raw : ℝ) : ℝ :=
  let t := (pyRound (raw * 8) : ℝ) / 8
  if t < raw then t + 0.125 else t

/-- Final cap-plate thickness of `calculate_plates`. -/
def t_cap_val (P_beam P_upper B_hss beam_width beam_offset lvl_bearing F_y phi load_factor : ℝ) : ℝ :=
  roundCap (t_cap_raw P_beam P_upper B_hss beam_width beam_offset lvl_bearing F_y phi load_factor)

/-- The raw resized bearing-plate thickness from `calculate_plates`:
`(P_upper/2) / (0.75*1.8*F_y*bearing_width)` with `bearing_width = B_hss`. -/
def t_bearing_raw (P_upper B_hss F_y : ℝ) : ℝ :=
  P_upper / 2 / (0.75 * 1.8 * F_y * B_hss)

/-- Final bearing-plate thickness of `calculate_plates`: the 1.0-in trial is
kept unless `phi_Rn = 0.75*1.8*F_y*(bearing_width*1.0)` is below `P_upper/2`,
in which case the recomputed thickness is rounded with `roundBearing`. -/
def t_bearing_val (P_upper B_hss F_y : ℝ) : ℝ :=
  if 0.75 * 1.8 * F_y * (B_hss * 1.0) < P_upper / 2 then
    roundBearing (t_bearing_raw P_upper B_hss F_y)
  else 1.0

/-- Verified LVL bearing stress from `calculate_plates`:
`P_s * 1000 / (beam_width * N)`. -/
def bearing_stress_val (P_beam beam_width B_hss lvl_bearing load_factor : ℝ) : ℝ :=
  P_beam / load_factor * 1000 /
    (beam_width * N_val P_beam beam_width B_hss lvl_bearing load_factor)

/-- Per-inch weld demand from `calculate_plates`:
`max(q_cap, q_bearing)` with `q_cap = (P_beam+P_upper)/(4*B_hss)` and
`q_bearing = P_upper/(2*2*B_hss)`. -/
def weld_demand (P_beam P_upper B_hss : ℝ) : ℝ :=
  max ((P_beam + P_upper) / (4 * B_hss)) (P_upper / (2 * 2 * B_hss))

/-- Final weld size of `calculate_plates`: keep 3/16 in unless the demand
exceeds `phi_Rn_weld = 0.75*0.707*(3/16)*0.6*70`, in which case the required
size is recomputed and rounded with Python `round` to the nearest 1/16 in. -/
def weld_size_val (P_beam P_upper B_hss : ℝ) : ℝ :=
  if weld_demand P_beam P_upper B_hss > 0.75 * 0.707 * (3 / 16) * 0.6 * 70 then
    (pyRound (weld_demand P_beam P_upper B_hss / (0.75 * 0.707 * 0.6 * 70) * 16) : ℝ) / 16
  else 3 / 16

/-- `calculate_plates` from `posts.py`.  Every condition the Python body
raises under its `except Exception` clause and returns as an error
dictionary is modelled by `Except.error`, in source order:
the `ZeroDivisionError`s of `P_s = P_beam/load_factor`,
`A_bearing = P_s*1000/lvl_bearing` and `N = A_bearing/beam_width`;
the explicit `ValueError` on a zero denominator `phi*F_y*B*N`;
the `TypeError` from `round()` on the complex value of
`(negative radicand) ** 0.5` in the cap-plate thickness;
the `ZeroDivisionError` of the bearing-plate resize division (reached only
when the resize branch is taken); the explicit `ValueError` on the
re-verified bearing stress exceeding `lvl_bearing`; and the
`ZeroDivisionError`s of the per-inch weld demands `(..)/(4*B_hss)` and
`(..)/(2*2*B_hss)`.  The success dictionary is `Except.ok` of the
`PlateDesign` fields. -/
def calculate_plates (P_beam P_upper B_hss beam_width beam_height beam_offset
    lvl_bearing F_y phi load_factor : ℝ) : Except String PlateDesign :=
  if load_factor = 0 then
    Except.error "float division by zero"
  else if lvl_bearing = 0 then
    Except.error "float division by zero"
  else if beam_width = 0 then
    Except.error "float division by zero"
  else if phi * F_y * B_val B_hss beam_width *
      N_val P_beam beam_width B_hss lvl_bearing load_factor = 0 then
    Except.error "Invalid plate dimensions."
  else if 2 * (P_beam + P_upper) / (phi * F_y * B_val B_hss beam_width *
      N_val P_beam beam_width B_hss lvl_bearing load_factor) < 0 then
    Except.error "complex value from negative radicand"
  else if 0.75 * 1.8 * F_y * (B_hss * 1.0) < P_upper / 2 ∧
      0.75 * 1.8 * F_y * B_hss = 0 then
    Except.error "float division by zero"
  else if bearing_stress_val P_beam beam_width B_hss lvl_bearing load_factor > lvl_bearing then
    Except.error "Bearing stress exceeds allowable."
  else if B_hss = 0 then
    Except.error "float division by zero"
  else
    Except.ok
      { capB := B_val B_hss beam_width
        capN := N_val P_beam beam_width B_hss lvl_bearing load_factor
        t_cap := t_cap_val P_beam P_upper B_hss beam_width beam_offset lvl_bearing F_y phi load_factor
        bearing_width := B_hss
        bearing_height := beam_height
        t_bearing := t_bearing_val P_upper B_hss F_y
        bearing_stress := bearing_stress_val P_beam beam_width B_hss lvl_bearing load_factor
        weld_size := weld_size_val P_beam P_upper B_hss }

/-- An input case of `process_column_stack`:
`(post_length, beam_load, beam_width, beam_height)`. -/
abbrev Case := ℝ × ℝ × ℝ × ℝ

/-- The beam load of a case. -/
def beamLoad (c : Case) : ℝ := c.2.1

/-- Sum of the beam loads of a list of cases. -/
def sumLoads (l : List Case) : ℝ := (l.map beamLoad).sum

/-- The cumulative-load list `total_loads` of `process_column_stack`:
iterate the reversed case list, accumulate the beam loads, and prepend each
partial sum (Python `total_loads.insert(0, cumulative_load)`). -/
def totalLoads (cases : List Case) : List ℝ :=
  (cases.reverse.foldl
    (fun acc c => (acc.1 + beamLoad c, (acc.1 + beamLoad c) :: acc.2)) (0, [])).2

/-- One entry of the result list of `process_column_stack`: either the
per-level error record for a failed section search, or the chosen section
(designation, A, S, B) together with the plate-design result. -/
inductive LevelResult where
  | noSection : LevelResult
  | design : String × ℝ × ℝ × ℝ → Except String PlateDesign → LevelResult

/-- The loop body of `process_column_stack` for one `(case, P_total)` pair:
select the HSS (with the default `F_y = 46`, `phi_c = 0.9`), then on success
size the plates for `P_upper = P_total - beam_load` (with the default
`beam_offset = 0`, `F_y = 36`, `phi = 0.9`, `load_factor = 1.6`). -/
def processLevel (lvl_bearing : ℝ) (cp : Case × ℝ) : LevelResult :=
  match select_hss_size cp.2 cp.1.1 cp.1.2.1 cp.1.2.2.1 46 0.9 with
  | none => LevelResult.noSection
  | some out =>
      LevelResult.design out
        (calculate_plates cp.1.2.1 (cp.2 - cp.1.2.1) out.2.2.2 cp.1.2.2.1 cp.1.2.2.2
          0 lvl_bearing 36 0.9 1.6)

/-- `process_column_stack` from `posts.py`: pair each case with its
cumulative load and process each level independently. -/
def process_column_stack (cases : List Case) (lvl_bearing : ℝ) : List LevelResult :=
  (cases.zip (totalLoads cases)).map (processLevel lvl_bearing)

/-- Suffix sums of the beam loads: `tailSums l` lists, for each suffix of
`l`, the total beam load of that suffix. -/
def tailSums : List Case → List ℝ
  | [] => []
  | c :: l => sumLoads (c :: l) :: tailSums l

/-- A `calculate_plates` outcome that carries the error dictionary. -/
def isError : Except String PlateDesign → Prop
  | Except.error _ => True
  | Except.ok _ => False

/-- The 4-level demonstration stack from the `__main__` block of `posts.py`. -/
def exampleCases : List Case :=
  [(120, 56, 3, 12), (96, 40, 3.5, 14), (144, 20, 2.5, 10), (144, 0.1, 2.5, 10)]

/-- The cap-plate rounding dominates both the raw thickness and the
3/8-inch practical minimum. -/
theorem roundCap_ge (raw : ℝ) : max raw 0.375 ≤ roundCap raw := by
  unfold roundCap
  have h8 : raw * 8 - 1 / 2 ≤ (pyRound (raw * 8) : ℝ) := pyRound_ge _
  set t := max ((pyRound (raw * 8) : ℝ) / 8) 0.375 with ht
  have htmin : 0.375 ≤ t := le_max_right _ _
  have htraw : raw - 1 / 16 ≤ t := by
    have : raw - 1 / 16 ≤ (pyRound (raw * 8) : ℝ) / 8 := by linarith
    exact le_trans this (le_max_left _ _)
  by_cases hlt : t < raw
  · rw [if_pos hlt]
    exact max_le (by linarith) (by linarith)
  · rw [if_neg hlt]
    exact max_le (not_lt.mp hlt) htmin

/-- The bearing-plate rounding dominates the raw thickness. -/
theorem roundBearing_ge (raw : ℝ) : raw ≤ roundBearing raw := by
  unfold roundBearing
  have h8 : raw * 8 - 1 / 2 ≤ (pyRound (raw * 8) : ℝ) := pyRound_ge _
  set t := (pyRound (raw * 8) : ℝ) / 8 with ht
  by_cases hlt : t < raw
  · rw [if_pos hlt]; linarith
  · rw [if_neg hlt]; exact not_lt.mp hlt

/-- If the weld resize branch is taken, the reported weld size is within
1/32 inch below the raw required size (Python `round` to the nearest 1/16). -/
theorem pyRound_sixteenth_ge (raw : ℝ) : raw - 1 / 32 ≤ (pyRound (raw * 16) : ℝ) / 16 := by
  have := pyRound_ge (raw * 16)
  linarith

/-- First-match characterization of the catalog scan `selectFrom`: a returned
candidate passes both checks, is drawn from the list, and every candidate
before it fails the slenderness or the interaction check. -/
theorem selectFrom_some (P L b w F p : ℝ) (l : List HSS) :
    ∀ out, selectFrom P L b w F p l = some out →
      ∃ i, ∃ hi : i < l.length,
        out = ((l.get ⟨i, hi⟩).name, (l.get ⟨i, hi⟩).A, (l.get ⟨i, hi⟩).S, (l.get ⟨i, hi⟩).B) ∧
        passes P L b w F p (l.get ⟨i, hi⟩) ∧
        ∀ j (hj : j < i), fails P L b w F p (l.get ⟨j, lt_trans hj hi⟩) := by
  induction l with
  | nil => intro out h; simp [selectFrom] at h
  | cons c rest ih =>
    intro out h
    simp only [selectFrom] at h
    by_cases h1 : slenderness L c.A > 200
    · rw [if_pos h1] at h
      obtain ⟨i, hi, hout, hp, hf⟩ := ih out h
      refine ⟨i + 1, Nat.succ_lt_succ hi, by simpa using hout, by simpa using hp, ?_⟩
      intro j hj
      cases j with
      | zero => exact Or.inl (by simpa using h1)
      | succ k =>
        have := hf k (Nat.lt_of_succ_lt_succ hj)
        simpa using this
    · rw [if_neg h1] at h
      by_cases h2 : interRatio P b w F p c ≤ 0.9
      · rw [if_pos h2] at h
        refine ⟨0, Nat.succ_pos _, ?_, ?_, ?_⟩
        · simpa using h.symm
        · exact ⟨not_lt.mp h1, h2⟩
        · intro j hj; omega
      · rw [if_neg h2] at h
        obtain ⟨i, hi, hout, hp, hf⟩ := ih out h
        refine ⟨i + 1, Nat.succ_lt_succ hi, by simpa using hout, by simpa using hp, ?_⟩
        intro j hj
        cases j with
        | zero => exact Or.inr (by simpa using not_le.mp h2)
        | succ k =>
          have := hf k (Nat.lt_of_succ_lt_succ hj)
          simpa using this

/-- The catalog scan returns `none` exactly when every candidate fails the
slenderness or the interaction check. -/
theorem selectFrom_none (P L b w F p : ℝ) (l : List HSS) :
    selectFrom P L b w F p l = none ↔ ∀ c ∈ l, fails P L b w F p c := by
  induction l with
  | nil => simp [selectFrom]
  | cons c rest ih =>
    simp only [selectFrom]
    by_cases h1 : slenderness L c.A > 200
    · rw [if_pos h1, ih]
      constructor
      · intro hall d hd
        rcases List.mem_cons.mp hd with rfl | hd
        · exact Or.inl h1
        · exact hall d hd
      · intro hall d hd
        exact hall d (List.mem_cons_of_mem c hd)
    · rw [if_neg h1]
      by_cases h2 : interRatio P b w F p c ≤ 0.9
      · rw [if_pos h2]
        constructor
        · intro h; exact absurd h (by simp)
        · intro hall
          exfalso
          rcases hall c (List.mem_cons_self c rest) with hs | hi
          · exact h1 hs
          · exact not_le.mpr hi h2
      · rw [if_neg h2, ih]
        constructor
        · intro hall d hd
          rcases List.mem_cons.mp hd with rfl | hd
          · exact Or.inr (not_le.mp h2)
          · exact hall d hd
        · intro hall d hd
          exact hall d (List.mem_cons_of_mem c hd)

/-- The reversed-scan accumulation of `process_column_stack` computes exactly
the suffix sums of the beam loads. -/
theorem totalLoads_eq_tailSums (cases : List Case) : totalLoads cases = tailSums cases := by
  have key : ∀ l : List Case,
      (l.foldr (fun c acc => (acc.1 + beamLoad c, (acc.1 + beamLoad c) :: acc.2))
        ((0 : ℝ), ([] : List ℝ))) = (sumLoads l, tailSums l) := by
    intro l
    induction l with
    | nil => simp [sumLoads, tailSums]
    | cons c l ih =>
      simp only [List.foldr, ih, tailSums]
      have : sumLoads l + beamLoad c = sumLoads (c :: l) := by
        simp [sumLoads]; ring
      rw [this]
  unfold totalLoads
  rw [List.foldl_reverse, key]

/-- `tailSums` preserves length. -/
theorem tailSums_length (l : List Case) : (tailSums l).length = l.length := by
  induction l with
  | nil => rfl
  | cons c l ih => simp [tailSums, ih]

/-- The `i`-th suffix sum is the total beam load of the cases from level `i` up. -/
theorem tailSums_getD (l : List Case) :
    ∀ i, i < l.length → (tailSums l).getD i 0 = sumLoads (l.drop i) := by
  induction l with
  | nil => intro i hi; simp at hi
  | cons c l ih =>
    intro i hi
    cases i with
    | zero => simp [tailSums]
    | succ k =>
      simp only [tailSums, List.getD_cons_succ, List.drop_succ_cons]
      exact ih k (Nat.lt_of_succ_lt_succ hi)

/-- Unfolding `process_column_stack` one level at a time. -/
theorem process_cons (c : Case) (cases : List Case) (lvl_bearing : ℝ) :
    process_column_stack (c :: cases) lvl_bearing =
      processLevel lvl_bearing (c, sumLoads (c :: cases)) ::
        process_column_stack cases lvl_bearing := by
  unfold process_column_stack
  rw [totalLoads_eq_tailSums, totalLoads_eq_tailSums]
  rfl

/-- `process_column_stack` yields one result per input case. -/
theorem process_length (cases : List Case) (lvl_bearing : ℝ) :
    (process_column_stack cases lvl_bearing).length = cases.length := by
  unfold process_column_stack
  rw [totalLoads_eq_tailSums, List.length_map, List.length_zip, tailSums_length,
    min_self]

/-- The `i`-th result of `process_column_stack` is the level processed with
the `i`-th case and the suffix sum of the loads from level `i` up. -/
theorem process_getD (cases : List Case) (lvl_bearing : ℝ) :
    ∀ i, i < cases.length →
      (process_column_stack cases lvl_bearing).getD i LevelResult.noSection =
        processLevel lvl_bearing (cases.getD i (0, 0, 0, 0), sumLoads (cases.drop i)) := by
  induction cases with
  | nil => intro i hi; simp at hi
  | cons c cases ih =>
    intro i hi
    rw [process_cons]
    cases i with
    | zero => simp
    | succ k =>
      simp only [List.getD_cons_succ, List.drop_succ_cons]
      exact ih k (Nat.lt_of_succ_lt_succ hi)

/-- Concrete square-root lower bound used by the slenderness check of the
first catalog entry at `L = 120`. -/
theorem sqrt43_lb : (1.5 : ℝ) < Real.sqrt 4.30 :=
  lt_sqrt_of_sq_lt (by norm_num) (by norm_num)

/-- At `L = 120` the first catalog entry passes the slenderness bound. -/
theorem slen_43 : slenderness 120 4.30 ≤ 200 := by
  have hs := sqrt43_lb
  unfold slenderness K r_factor
  rw [div_le_iff₀ (by nlinarith)]
  nlinarith

/-- Evaluation of the section search at the Level-1 loads of the example
stack: the first candidate already passes both checks. -/
theorem select_at_1161 :
    select_hss_size 116.1 120 56 3 46 0.9 =
      some ("HSS6x6x3/16", 4.30, 10.3, 6.0) := by
  unfold select_hss_size hss_sizes
  simp only [selectFrom]
  rw [if_neg (not_lt.mpr slen_43), if_pos (by unfold interRatio; norm_num)]

/-- With an enormous total load every candidate fails the interaction
check, so the search is exhausted. -/
theorem select_none_10040 :
    select_hss_size 10040 120 10000 3 46 0.9 = none := by
  unfold select_hss_size
  rw [selectFrom_none]
  intro c hc
  simp only [hss_sizes, List.mem_cons, List.not_mem_nil, or_false] at hc
  rcases hc with rfl | rfl | rfl | rfl | rfl <;>
    exact Or.inr (by unfold interRatio; norm_num)

/-- Cap-plate width for a 6-in HSS and a 3-in beam. -/
theorem B_val_6_3 : B_val 6 3 = 8 := by
  unfold B_val
  rw [max_eq_left (by norm_num)]
  norm_num

/-- Bearing length for `P_beam = 56`, a 3-in beam and a 6-in HSS with the
default allowable stress and load factor. -/
theorem N_val_56 : N_val 56 3 6 500 1.6 = 23.5 := by
  unfold N_val
  rw [max_eq_left (by norm_num)]
  rw [show (56 : ℝ) / 1.6 * 1000 / 500 / 3 * 4 = 280 / 3 by norm_num]
  rw [show ⌈(280 / 3 : ℝ)⌉ = 94 from Int.ceil_eq_iff.mpr (by norm_num)]
  norm_num

/-- Effective cantilever length for a 6-in HSS, 3-in beam, no offset. -/
theorem l_val_6_3 : l_val 6 3 0 = 3 := by
  unfold l_val
  rw [B_val_6_3]
  norm_num [max_def]

/-- Verified bearing stress for `P_beam = 56`, a 3-in beam and a 6-in HSS. -/
theorem stress_56 : bearing_stress_val 56 3 6 500 1.6 = 70000 / 141 := by
  unfold bearing_stress_val
  rw [N_val_56]
  norm_num

/-- The 1.0-in bearing-plate trial is kept for `P_upper = 54.4`, `F_y = 36`. -/
theorem t_bearing_544 : t_bearing_val 54.4 6 36 = 1.0 := by
  unfold t_bearing_val
  rw [if_neg (by norm_num)]

/-- The 1.0-in bearing-plate trial is kept for `P_upper = 60.1`, `F_y = 36`. -/
theorem t_bearing_601 : t_bearing_val 60.1 6 36 = 1.0 := by
  unfold t_bearing_val
  rw [if_neg (by norm_num)]

/-- Weld size for `P_beam = 56`, `P_upper = 54.4`, `B_hss = 6`: the demand
4.6 kips/in exceeds the 3/16-in capacity, and the recomputed size rounds
DOWN to 3/16 (Python `round` to nearest). -/
theorem weld_544 : weld_size_val 56 54.4 6 = 3 / 16 := by
  unfold weld_size_val weld_demand
  rw [max_eq_left (by norm_num)]
  rw [if_pos (by norm_num)]
  rw [show ((56 : ℝ) + 54.4) / (4 * 6) / (0.75 * 0.707 * 0.6 * 70) * 16 = 147200 / 44541 by
    norm_num]
  rw [show pyRound ((147200 : ℝ) / 44541) = 3 from pyRound_eq (by norm_num) (by norm_num)]
  norm_num

/-- Weld size for `P_beam = 56`, `P_upper = 60.1`, `B_hss = 6`. -/
theorem weld_601 : weld_size_val 56 60.1 6 = 3 / 16 := by
  unfold weld_size_val weld_demand
  rw [max_eq_left (by norm_num)]
  rw [if_pos (by norm_num)]
  rw [show ((56 : ℝ) + 60.1) / (4 * 6) / (0.75 * 0.707 * 0.6 * 70) * 16 = 17200 / 4949 by
    norm_num]
  rw [show pyRound ((17200 : ℝ) / 4949) = 3 from pyRound_eq (by norm_num) (by norm_num)]
  norm_num

/-- Cap-plate thickness for the `P_upper = 54.4` call: the raw thickness
`3 * sqrt(46/1269) ≈ 0.571` rounds to 5/8 in with no bump. -/
theorem t_cap_544 : t_cap_val 56 54.4 6 3 0 500 36 0.9 1.6 = 0.625 := by
  unfold t_cap_val t_cap_raw
  rw [l_val_6_3, B_val_6_3, N_val_56]
  rw [show 2 * ((56 : ℝ) + 54.4) / (0.9 * 36 * 8 * 23.5) = 46 / 1269 by norm_num]
  have hs1 : (0.1875 : ℝ) < Real.sqrt (46 / 1269) :=
    lt_sqrt_of_sq_lt (by norm_num) (by norm_num)
  have hs2 : Real.sqrt (46 / 1269) < 5 / 24 :=
    sqrt_lt_of_lt_sq (by norm_num) (by norm_num)
  unfold roundCap
  rw [show pyRound ((3 : ℝ) * Real.sqrt (46 / 1269) * 8) = 5 from
    pyRound_eq (by push_cast; nlinarith) (by push_cast; nlinarith)]
  rw [max_eq_left (by norm_num)]
  rw [if_neg (by push_cast; nlinarith)]
  norm_num

/-- Cap-plate thickness for the `P_upper = 60.1` call: the raw thickness
`3 * sqrt(43/1128) ≈ 0.586` rounds to 5/8 in with no bump. -/
theorem t_cap_601 : t_cap_val 56 60.1 6 3 0 500 36 0.9 1.6 = 0.625 := by
  unfold t_cap_val t_cap_raw
  rw [l_val_6_3, B_val_6_3, N_val_56]
  rw [show 2 * ((56 : ℝ) + 60.1) / (0.9 * 36 * 8 * 23.5) = 43 / 1128 by norm_num]
  have hs1 : (0.1875 : ℝ) < Real.sqrt (43 / 1128) :=
    lt_sqrt_of_sq_lt (by norm_num) (by norm_num)
  have hs2 : Real.sqrt (43 / 1128) < 5 / 24 :=
    sqrt_lt_of_lt_sq (by norm_num) (by norm_num)
  unfold roundCap
  rw [show pyRound ((3 : ℝ) * Real.sqrt (43 / 1128) * 8) = 5 from
    pyRound_eq (by push_cast; nlinarith) (by push_cast; nlinarith)]
  rw [max_eq_left (by norm_num)]
  rw [if_neg (by push_cast; nlinarith)]
  norm_num

/-- Full evaluation of `calculate_plates` at `P_beam = 56`, `P_upper = 54.4`
on a 6-in HSS with a 3x12 beam and default constants. -/
theorem plates_eval_A :
    calculate_plates 56 54.4 6 3 12 0 500 36 0.9 1.6 =
      Except.ok ⟨8, 23.5, 0.625, 6, 12, 1.0, 70000 / 141, 3 / 16⟩ := by
  unfold calculate_plates
  rw [B_val_6_3, N_val_56, stress_56, t_cap_544, t_bearing_544, weld_544]
  rw [if_neg (by norm_num : ¬(1.6 : ℝ) = 0), if_neg (by norm_num : ¬(500 : ℝ) = 0),
    if_neg (by norm_num : ¬(3 : ℝ) = 0), if_neg (by norm_num), if_neg (by norm_num),
    if_neg (by norm_num), if_neg (by norm_num), if_neg (by norm_num : ¬(6 : ℝ) = 0)]

/-- Full evaluation of `calculate_plates` at `P_beam = 56`, `P_upper = 60.1`
on a 6-in HSS with a 3x12 beam and default constants. -/
theorem plates_eval_B :
    calculate_plates 56 60.1 6 3 12 0 500 36 0.9 1.6 =
      Except.ok ⟨8, 23.5, 0.625, 6, 12, 1.0, 70000 / 141, 3 / 16⟩ := by
  unfold calculate_plates
  rw [B_val_6_3, N_val_56, stress_56, t_cap_601, t_bearing_601, weld_601]
  rw [if_neg (by norm_num : ¬(1.6 : ℝ) = 0), if_neg (by norm_num : ¬(500 : ℝ) = 0),
    if_neg (by norm_num : ¬(3 : ℝ) = 0), if_neg (by norm_num), if_neg (by norm_num),
    if_neg (by norm_num), if_neg (by norm_num), if_neg (by norm_num : ¬(6 : ℝ) = 0)]

/-- The slenderness formula is strictly antitone in the area for a fixed
positive length. -/
theorem slen_anti {L a b : ℝ} (hL : 0 < L) (ha : 0 < a) (hab : a < b) :
    slenderness L b < slenderness L a := by
  unfold slenderness K r_factor
  have h1 : Real.sqrt a < Real.sqrt b := Real.sqrt_lt_sqrt ha.le hab
  have h2 : 0 < Real.sqrt a := Real.sqrt_pos.mpr ha
  exact div_lt_div_of_pos_left (by linarith) (by nlinarith) (by nlinarith)

/-- Every catalog area is positive. -/
theorem hss_area_pos : ∀ i (hi : i < hss_sizes.length), 0 < (hss_sizes.get ⟨i, hi⟩).A := by
  intro i hi
  have hi5 : i < 5 := hi
  interval_cases i <;> norm_num [hss_sizes]

/-- The catalog areas are strictly increasing. -/
theorem hss_area_strictMono :
    ∀ i j (hi : i < hss_sizes.length) (hj : j < hss_sizes.length), i < j →
      (hss_sizes.get ⟨i, hi⟩).A < (hss_sizes.get ⟨j, hj⟩).A := by
  intro i j hi hj hij
  have hi5 : i < 5 := hi
  have hj5 : j < 5 := hj
  interval_cases i <;> interval_cases j <;> first
    | omega
    | norm_num [hss_sizes]

/-- C1: for every input, `select_hss_size` returns the first candidate of
the fixed 5-entry catalog whose slenderness is at most 200 and whose
interaction ratio is at most 0.9; every preceding candidate fails
slenderness > 200 or interaction > 0.9, and the returned candidate has
interaction ratio at most 0.9. -/
theorem C1_select_first_match (P_total L beam_load beam_width F_y phi_c : ℝ)
    (out : String × ℝ × ℝ × ℝ)
    (h : select_hss_size P_total L beam_load beam_width F_y phi_c = some out) :
    ∃ i, ∃ hi : i < hss_sizes.length,
      out = ((hss_sizes.get ⟨i, hi⟩).name, (hss_sizes.get ⟨i, hi⟩).A,
        (hss_sizes.get ⟨i, hi⟩).S, (hss_sizes.get ⟨i, hi⟩).B) ∧
      slenderness L (hss_sizes.get ⟨i, hi⟩).A ≤ 200 ∧
      interRatio P_total beam_load beam_width F_y phi_c (hss_sizes.get ⟨i, hi⟩) ≤ 0.9 ∧
      ∀ j (hj : j < i),
        fails P_total L beam_load beam_width F_y phi_c (hss_sizes.get ⟨j, lt_trans hj hi⟩) := by
  obtain ⟨i, hi, hout, hp, hf⟩ :=
    selectFrom_some P_total L beam_load beam_width F_y phi_c hss_sizes out h
  exact ⟨i, hi, hout, hp.1, hp.2, hf⟩

/-- Witness for C1 at the Level-1 loads of the example stack. -/
theorem C1_select_first_match_witness :
    ∃ i, ∃ hi : i < hss_sizes.length,
      ("HSS6x6x3/16", (4.30 : ℝ), (10.3 : ℝ), (6.0 : ℝ)) =
        ((hss_sizes.get ⟨i, hi⟩).name, (hss_sizes.get ⟨i, hi⟩).A,
          (hss_sizes.get ⟨i, hi⟩).S, (hss_sizes.get ⟨i, hi⟩).B) ∧
      slenderness 120 (hss_sizes.get ⟨i, hi⟩).A ≤ 200 ∧
      interRatio 116.1 56 3 46 0.9 (hss_sizes.get ⟨i, hi⟩) ≤ 0.9 ∧
      ∀ j (hj : j < i), fails 116.1 120 56 3 46 0.9 (hss_sizes.get ⟨j, lt_trans hj hi⟩) :=
  C1_select_first_match 116.1 120 56 3 46 0.9 _ select_at_1161

/-- C10: the catalog areas are strictly increasing, hence for every fixed
post length `L > 0` the slenderness is strictly decreasing along the
catalog, and the candidates passing the slenderness bound are closed
upward: once a candidate passes, every later candidate passes too. -/
theorem C10_slenderness_antitone (L : ℝ) (hL : 0 < L) :
    (∀ i j (hi : i < hss_sizes.length) (hj : j < hss_sizes.length), i < j →
      (hss_sizes.get ⟨i, hi⟩).A < (hss_sizes.get ⟨j, hj⟩).A) ∧
    (∀ i j (hi : i < hss_sizes.length) (hj : j < hss_sizes.length), i < j →
      slenderness L (hss_sizes.get ⟨j, hj⟩).A < slenderness L (hss_sizes.get ⟨i, hi⟩).A) ∧
    (∀ i j (hi : i < hss_sizes.length) (hj : j < hss_sizes.length), i ≤ j →
      slenderness L (hss_sizes.get ⟨i, hi⟩).A ≤ 200 →
      slenderness L (hss_sizes.get ⟨j, hj⟩).A ≤ 200) := by
  have hanti : ∀ i j (hi : i < hss_sizes.length) (hj : j < hss_sizes.length), i < j →
      slenderness L (hss_sizes.get ⟨j, hj⟩).A < slenderness L (hss_sizes.get ⟨i, hi⟩).A := by
    intro i j hi hj hij
    exact slen_anti hL (hss_area_pos i hi) (hss_area_strictMono i j hi hj hij)
  refine ⟨hss_area_strictMono, hanti, ?_⟩
  intro i j hi hj hij hle
  rcases Nat.lt_or_ge i j with hlt | hge
  · exact le_trans (hanti i j hi hj hlt).le hle
  · have : i = j := le_antisymm hij hge
    subst this
    exact hle

/-- Witness for C10 at `L = 120`. -/
theorem C10_slenderness_antitone_witness :
    (∀ i j (hi : i < hss_sizes.length) (hj : j < hss_sizes.length), i < j →
      (hss_sizes.get ⟨i, hi⟩).A < (hss_sizes.get ⟨j, hj⟩).A) ∧
    (∀ i j (hi : i < hss_sizes.length) (hj : j < hss_sizes.length), i < j →
      slenderness 120 (hss_sizes.get ⟨j, hj⟩).A < slenderness 120 (hss_sizes.get ⟨i, hi⟩).A) ∧
    (∀ i j (hi : i < hss_sizes.length) (hj : j < hss_sizes.length), i ≤ j →
      slenderness 120 (hss_sizes.get ⟨i, hi⟩).A ≤ 200 →
      slenderness 120 (hss_sizes.get ⟨j, hj⟩).A ≤ 200) :=
  C10_slenderness_antitone 120 (by norm_num)

/-- C2 counterexample: at the Level-1 inputs of the concrete scenario
(`P_total = 116.1`, `L = 120`, `beam_load = 56`, `beam_width = 3` with the
default material constants) the selector returns `HSS6x6x3/16`, not the
claimed `HSS8x8x1/4`: the very first candidate already passes both the
slenderness and the interaction check. -/
theorem C2_counterexample :
    select_hss_size 116.1 120 56 3 46 0.9 = some ("HSS6x6x3/16", 4.30, 10.3, 6.0) ∧
    select_hss_size 116.1 120 56 3 46 0.9 ≠ some ("HSS8x8x1/4", 7.56, 22.4, 8.0) := by
  refine ⟨select_at_1161, ?_⟩
  rw [select_at_1161]
  intro h
  have hs : "HSS6x6x3/16" = "HSS8x8x1/4" := congrArg Prod.fst (Option.some.inj h)
  exact absurd hs (by decide)

/-- C2 amended: at the concrete scenario the selector returns
`HSS6x6x3/16`, and the subsequent plate design (cap width 8 in ≥ 8,
bearing-plate thickness 1.0 in ≥ 1.0) is a non-error result. -/
theorem C2_amended :
    select_hss_size 116.1 120 56 3 46 0.9 = some ("HSS6x6x3/16", 4.30, 10.3, 6.0) ∧
    calculate_plates 56 (116.1 - 56) 6.0 3 12 0 500 36 0.9 1.6 =
      Except.ok ⟨8, 23.5, 0.625, 6, 12, 1.0, 70000 / 141, 3 / 16⟩ := by
  refine ⟨select_at_1161, ?_⟩
  rw [show (116.1 : ℝ) - 56 = 60.1 by norm_num, show (6.0 : ℝ) = 6 by norm_num]
  exact plates_eval_B

/-- C3 counterexample: at `P_beam = 56`, `P_upper = 54.4` on a 6-in HSS the
per-inch weld demand (4.6 kips/in) exceeds the 3/16-in capacity, yet the
reported weld size 3/16 in is strictly below the raw required size
`demand / (0.75*0.707*0.6*70) ≈ 0.2066`: Python `round` rounds it DOWN. -/
theorem C3_counterexample :
    weld_demand 56 54.4 6 > 0.75 * 0.707 * (3 / 16) * 0.6 * 70 ∧
    calculate_plates 56 54.4 6 3 12 0 500 36 0.9 1.6 =
      Except.ok ⟨8, 23.5, 0.625, 6, 12, 1.0, 70000 / 141, 3 / 16⟩ ∧
    (3 / 16 : ℝ) < weld_demand 56 54.4 6 / (0.75 * 0.707 * 0.6 * 70) := by
  have hd : weld_demand 56 54.4 6 = 4.6 := by
    unfold weld_demand
    rw [max_eq_left (by norm_num)]
    norm_num
  exact ⟨by rw [hd]; norm_num, plates_eval_A, by rw [hd]; norm_num⟩

/-- C3 amended: the resized weld size is rounded to the NEAREST 1/16 inch
(Python `round`, no round-up guarantee), so the reported weld size may fall
below the raw computed required size, but never by more than 1/32 inch. -/
theorem C3_amended (P_beam P_upper B_hss beam_width beam_height beam_offset
    lvl_bearing F_y phi load_factor : ℝ) (d : PlateDesign)
    (h : calculate_plates P_beam P_upper B_hss beam_width beam_height beam_offset
      lvl_bearing F_y phi load_factor = Except.ok d) :
    d.weld_size = weld_size_val P_beam P_upper B_hss ∧
    weld_demand P_beam P_upper B_hss / (0.75 * 0.707 * 0.6 * 70) - 1 / 32 ≤ d.weld_size := by
  unfold calculate_plates at h
  split_ifs at h with hLF hLB hBW hDen hRad hRz hStr hB0
  injection h with h
  subst h
  refine ⟨rfl, ?_⟩
  unfold weld_size_val
  by_cases hbr : weld_demand P_beam P_upper B_hss > 0.75 * 0.707 * (3 / 16) * 0.6 * 70
  · rw [if_pos hbr]
    have := pyRound_ge (weld_demand P_beam P_upper B_hss / (0.75 * 0.707 * 0.6 * 70) * 16)
    linarith
  · rw [if_neg hbr]
    have hle := not_lt.mp hbr
    have h2 : weld_demand P_beam P_upper B_hss / (0.75 * 0.707 * 0.6 * 70) ≤ 3 / 16 := by
      rw [div_le_iff₀ (by norm_num)]
      nlinarith
    linarith

/-- Witness for the amended C3 at the `P_upper = 60.1` evaluation. -/
theorem C3_amended_witness :
    (3 / 16 : ℝ) = weld_size_val 56 60.1 6 ∧
    weld_demand 56 60.1 6 / (0.75 * 0.707 * 0.6 * 70) - 1 / 32 ≤ (3 / 16 : ℝ) :=
  C3_amended 56 60.1 6 3 12 0 500 36 0.9 1.6 _ plates_eval_B

/-- C4: in every successful result of `calculate_plates` the bearing length
`N` is `max((P_beam/load_factor)*1000/lvl_bearing/beam_width, B_hss)`
rounded up to the nearest quarter inch, the reported bearing stress is the
recomputed `P_s*1000/(beam_width*N)`, and it never exceeds `lvl_bearing`
(equivalently: when the recomputed stress exceeds `lvl_bearing` the function
returns an error result, never a successful one). -/
theorem C4_bearing_invariant (P_beam P_upper B_hss beam_width beam_height beam_offset
    lvl_bearing F_y phi load_factor : ℝ) (d : PlateDesign)
    (h : calculate_plates P_beam P_upper B_hss beam_width beam_height beam_offset
      lvl_bearing F_y phi load_factor = Except.ok d) :
    d.capN = (⌈max (P_beam / load_factor * 1000 / lvl_bearing / beam_width) B_hss * 4⌉ : ℝ) / 4 ∧
    d.bearing_stress = bearing_stress_val P_beam beam_width B_hss lvl_bearing load_factor ∧
    d.bearing_stress ≤ lvl_bearing ∧
    ¬ bearing_stress_val P_beam beam_width B_hss lvl_bearing load_factor > lvl_bearing := by
  unfold calculate_plates at h
  split_ifs at h with hLF hLB hBW hDen hRad hRz hStr hB0
  injection h with h
  subst h
  exact ⟨rfl, rfl, not_lt.mp hStr, hStr⟩

/-- Witness for C4 at the `P_upper = 54.4` evaluation. -/
theorem C4_bearing_invariant_witness :
    (23.5 : ℝ) = (⌈max ((56 : ℝ) / 1.6 * 1000 / 500 / 3) 6 * 4⌉ : ℝ) / 4 ∧
    (70000 / 141 : ℝ) = bearing_stress_val 56 3 6 500 1.6 ∧
    (70000 / 141 : ℝ) ≤ 500 ∧
    ¬ bearing_stress_val 56 3 6 500 1.6 > 500 :=
  C4_bearing_invariant 56 54.4 6 3 12 0 500 36 0.9 1.6 _ plates_eval_A

/-- C6: in every successful result the cap-plate thickness is the raw value
`l*sqrt(2*(P_beam+P_upper)/(phi*F_y*B*N))` rounded to the 1/8-inch grid,
floored at 3/8 in, bumped one further 1/8 in when the rounded value falls
below the raw value; hence it dominates both the raw value and 3/8 in. -/
theorem C6_cap_thickness (P_beam P_upper B_hss beam_width beam_height beam_offset
    lvl_bearing F_y phi load_factor : ℝ) (d : PlateDesign)
    (h : calculate_plates P_beam P_upper B_hss beam_width beam_height beam_offset
      lvl_bearing F_y phi load_factor = Except.ok d) :
    d.t_cap =
      (if max ((pyRound (t_cap_raw P_beam P_upper B_hss beam_width beam_offset
            lvl_bearing F_y phi load_factor * 8) : ℝ) / 8) 0.375 <
          t_cap_raw P_beam P_upper B_hss beam_width beam_offset lvl_bearing F_y phi load_factor
        then
          max ((pyRound (t_cap_raw P_beam P_upper B_hss beam_width beam_offset
            lvl_bearing F_y phi load_factor * 8) : ℝ) / 8) 0.375 + 0.125
        else
          max ((pyRound (t_cap_raw P_beam P_upper B_hss beam_width beam_offset
            lvl_bearing F_y phi load_factor * 8) : ℝ) / 8) 0.375) ∧
    max (t_cap_raw P_beam P_upper B_hss beam_width beam_offset lvl_bearing F_y phi load_factor)
      0.375 ≤ d.t_cap := by
  unfold calculate_plates at h
  split_ifs at h with hLF hLB hBW hDen hRad hRz hStr hB0
  injection h with h
  subst h
  exact ⟨rfl, roundCap_ge _⟩

/-- Witness for C6 at the `P_upper = 60.1` evaluation. -/
theorem C6_cap_thickness_witness :
    (0.625 : ℝ) =
      (if max ((pyRound (t_cap_raw 56 60.1 6 3 0 500 36 0.9 1.6 * 8) : ℝ) / 8) 0.375 <
          t_cap_raw 56 60.1 6 3 0 500 36 0.9 1.6
        then max ((pyRound (t_cap_raw 56 60.1 6 3 0 500 36 0.9 1.6 * 8) : ℝ) / 8) 0.375 + 0.125
        else max ((pyRound (t_cap_raw 56 60.1 6 3 0 500 36 0.9 1.6 * 8) : ℝ) / 8) 0.375) ∧
    max (t_cap_raw 56 60.1 6 3 0 500 36 0.9 1.6) 0.375 ≤ (0.625 : ℝ) :=
  C6_cap_thickness 56 60.1 6 3 12 0 500 36 0.9 1.6 _ plates_eval_B

/-- C7: `calculate_plates` is total and never propagates a failure: every
raised condition (the zero-divisor divisions by `load_factor`,
`lvl_bearing`, `beam_width`, the resize divisor and `B_hss`, the zero
denominator `phi*F_y*B*N`, the complex cap-plate radicand, and the
recomputed bearing stress exceeding `lvl_bearing`) yields a structured
error result, and otherwise it returns the full plate design with the
cap-plate, bearing-plate, bearing-stress and weld-size fields. -/
theorem C7_total_structured (P_beam P_upper B_hss beam_width beam_height beam_offset
    lvl_bearing F_y phi load_factor : ℝ) :
    ((load_factor = 0 ∨ lvl_bearing = 0 ∨ beam_width = 0 ∨
        phi * F_y * B_val B_hss beam_width *
          N_val P_beam beam_width B_hss lvl_bearing load_factor = 0 ∨
        2 * (P_beam + P_upper) / (phi * F_y * B_val B_hss beam_width *
          N_val P_beam beam_width B_hss lvl_bearing load_factor) < 0 ∨
        (0.75 * 1.8 * F_y * (B_hss * 1.0) < P_upper / 2 ∧
          0.75 * 1.8 * F_y * B_hss = 0) ∨
        bearing_stress_val P_beam beam_width B_hss lvl_bearing load_factor > lvl_bearing ∨
        B_hss = 0) ∧
      isError (calculate_plates P_beam P_upper B_hss beam_width beam_height beam_offset
        lvl_bearing F_y phi load_factor)) ∨
    (¬ (load_factor = 0 ∨ lvl_bearing = 0 ∨ beam_width = 0 ∨
        phi * F_y * B_val B_hss beam_width *
          N_val P_beam beam_width B_hss lvl_bearing load_factor = 0 ∨
        2 * (P_beam + P_upper) / (phi * F_y * B_val B_hss beam_width *
          N_val P_beam beam_width B_hss lvl_bearing load_factor) < 0 ∨
        (0.75 * 1.8 * F_y * (B_hss * 1.0) < P_upper / 2 ∧
          0.75 * 1.8 * F_y * B_hss = 0) ∨
        bearing_stress_val P_beam beam_width B_hss lvl_bearing load_factor > lvl_bearing ∨
        B_hss = 0) ∧
      calculate_plates P_beam P_upper B_hss beam_width beam_height beam_offset
          lvl_bearing F_y phi load_factor =
        Except.ok
          { capB := B_val B_hss beam_width
            capN := N_val P_beam beam_width B_hss lvl_bearing load_factor
            t_cap := t_cap_val P_beam P_upper B_hss beam_width beam_offset lvl_bearing F_y phi
              load_factor
            bearing_width := B_hss
            bearing_height := beam_height
            t_bearing := t_bearing_val P_upper B_hss F_y
            bearing_stress := bearing_stress_val P_beam beam_width B_hss lvl_bearing load_factor
            weld_size := weld_size_val P_beam P_upper B_hss }) := by
  unfold calculate_plates isError
  split_ifs with hLF hLB hBW hDen hRad hRz hStr hB0
  · exact Or.inl ⟨Or.inl hLF, trivial⟩
  · exact Or.inl ⟨Or.inr (Or.inl hLB), trivial⟩
  · exact Or.inl ⟨Or.inr (Or.inr (Or.inl hBW)), trivial⟩
  · exact Or.inl ⟨Or.inr (Or.inr (Or.inr (Or.inl hDen))), trivial⟩
  · exact Or.inl ⟨Or.inr (Or.inr (Or.inr (Or.inr (Or.inl hRad)))), trivial⟩
  · exact Or.inl ⟨Or.inr (Or.inr (Or.inr (Or.inr (Or.inr (Or.inl hRz))))), trivial⟩
  · exact Or.inl ⟨Or.inr (Or.inr (Or.inr (Or.inr (Or.inr (Or.inr (Or.inl hStr)))))), trivial⟩
  · exact Or.inl ⟨Or.inr (Or.inr (Or.inr (Or.inr (Or.inr (Or.inr (Or.inr hB0)))))), trivial⟩
  · refine Or.inr ⟨?_, rfl⟩
    simp only [not_or]
    exact ⟨hLF, hLB, hBW, hDen, hRad, hRz, hStr, hB0⟩

/-- C9: for every successful result with positive `F_y` and `B_hss`, the
bearing-plate thickness is at least 1.0 in; when the 1.0-in trial capacity
is insufficient for `P_upper/2` the rounded recomputed thickness is
strictly greater than 1.0, and otherwise it is exactly the 1.0-in trial. -/
theorem C9_bearing_thickness (P_beam P_upper B_hss beam_width beam_height beam_offset
    lvl_bearing F_y phi load_factor : ℝ) (d : PlateDesign)
    (hF : 0 < F_y) (hB : 0 < B_hss)
    (h : calculate_plates P_beam P_upper B_hss beam_width beam_height beam_offset
      lvl_bearing F_y phi load_factor = Except.ok d) :
    1 ≤ d.t_bearing ∧
    ((0.75 * 1.8 * F_y * (B_hss * 1.0) < P_upper / 2 ∧ 1 < d.t_bearing) ∨
      (¬ (0.75 * 1.8 * F_y * (B_hss * 1.0) < P_upper / 2) ∧ d.t_bearing = 1.0)) := by
  unfold calculate_plates at h
  split_ifs at h with hLF hLB hBW hDen hRad hRz hStr hB0
  injection h with h
  subst h
  by_cases hbr : 0.75 * 1.8 * F_y * (B_hss * 1.0) < P_upper / 2
  · have hval : t_bearing_val P_upper B_hss F_y = roundBearing (t_bearing_raw P_upper B_hss F_y) := by
      unfold t_bearing_val
      rw [if_pos hbr]
    have hpos : 0 < 0.75 * 1.8 * F_y * B_hss := by positivity
    have hraw : 1 < t_bearing_raw P_upper B_hss F_y := by
      unfold t_bearing_raw
      rw [lt_div_iff₀ hpos]
      nlinarith
    have hge := roundBearing_ge (t_bearing_raw P_upper B_hss F_y)
    have hgt : 1 < t_bearing_val P_upper B_hss F_y := by
      rw [hval]; linarith
    exact ⟨hgt.le, Or.inl ⟨hbr, hgt⟩⟩
  · have hval : t_bearing_val P_upper B_hss F_y = 1.0 := by
      unfold t_bearing_val
      rw [if_neg hbr]
    constructor
    · show (1 : ℝ) ≤ t_bearing_val P_upper B_hss F_y
      rw [hval]; norm_num
    · exact Or.inr ⟨hbr, hval⟩

/-- Witness for C9 at the `P_upper = 54.4` evaluation, where the 1.0-in
trial is kept. -/
theorem C9_bearing_thickness_witness :
    (1 : ℝ) ≤ (1.0 : ℝ) ∧
    ((0.75 * 1.8 * 36 * ((6 : ℝ) * 1.0) < 54.4 / 2 ∧ (1 : ℝ) < 1.0) ∨
      (¬ (0.75 * 1.8 * 36 * ((6 : ℝ) * 1.0) < 54.4 / 2) ∧ (1.0 : ℝ) = 1.0)) :=
  C9_bearing_thickness 56 54.4 6 3 12 0 500 36 0.9 1.6 _ (by norm_num) (by norm_num)
    plates_eval_A

/-- C5: for every input case list, the cumulative total at level `i`
(0-indexed from the bottom) equals the sum of the beam loads of levels
`i..n`, and the level is processed with that total: the plate-sizing call
receives `P_upper` equal to the cumulative total minus the level's own
beam load. -/
theorem C5_cumulative_loads (cases : List Case) (lvl_bearing : ℝ) (i : ℕ)
    (hi : i < cases.length) :
    (totalLoads cases).getD i 0 = sumLoads (cases.drop i) ∧
    (process_column_stack cases lvl_bearing).getD i LevelResult.noSection =
      (match select_hss_size (sumLoads (cases.drop i)) (cases.getD i (0, 0, 0, 0)).1
          (cases.getD i (0, 0, 0, 0)).2.1 (cases.getD i (0, 0, 0, 0)).2.2.1 46 0.9 with
        | none => LevelResult.noSection
        | some out =>
            LevelResult.design out
              (calculate_plates (cases.getD i (0, 0, 0, 0)).2.1
                (sumLoads (cases.drop i) - (cases.getD i (0, 0, 0, 0)).2.1)
                out.2.2.2 (cases.getD i (0, 0, 0, 0)).2.2.1 (cases.getD i (0, 0, 0, 0)).2.2.2
                0 lvl_bearing 36 0.9 1.6)) := by
  constructor
  · rw [totalLoads_eq_tailSums]
    exact tailSums_getD cases i hi
  · rw [process_getD cases lvl_bearing i hi]
    rfl

/-- Witness for C5 at the bottom level of the example stack. -/
theorem C5_cumulative_loads_witness :
    (totalLoads exampleCases).getD 0 0 = sumLoads (exampleCases.drop 0) ∧
    (process_column_stack exampleCases 500).getD 0 LevelResult.noSection =
      (match select_hss_size (sumLoads (exampleCases.drop 0)) (exampleCases.getD 0 (0, 0, 0, 0)).1
          (exampleCases.getD 0 (0, 0, 0, 0)).2.1 (exampleCases.getD 0 (0, 0, 0, 0)).2.2.1 46 0.9 with
        | none => LevelResult.noSection
        | some out =>
            LevelResult.design out
              (calculate_plates (exampleCases.getD 0 (0, 0, 0, 0)).2.1
                (sumLoads (exampleCases.drop 0) - (exampleCases.getD 0 (0, 0, 0, 0)).2.1)
                out.2.2.2 (exampleCases.getD 0 (0, 0, 0, 0)).2.2.1
                (exampleCases.getD 0 (0, 0, 0, 0)).2.2.2 0 500 36 0.9 1.6)) :=
  C5_cumulative_loads exampleCases 500 0 (by simp [exampleCases])

/-- C8: when every catalog candidate fails, `select_hss_size` returns the
none-tuple; `process_column_stack` yields exactly one result per input case
in the original order, and a level whose section search comes back empty is
recorded as the per-level error result while the other levels are still
processed. -/
theorem C8_exhaustion (P_total L beam_load beam_width F_y phi_c : ℝ)
    (cases : List Case) (lvl_bearing : ℝ) (i : ℕ)
    (hall : ∀ c ∈ hss_sizes, fails P_total L beam_load beam_width F_y phi_c c)
    (hi : i < cases.length)
    (hsel : select_hss_size (sumLoads (cases.drop i)) (cases.getD i (0, 0, 0, 0)).1
        (cases.getD i (0, 0, 0, 0)).2.1 (cases.getD i (0, 0, 0, 0)).2.2.1 46 0.9 = none) :
    select_hss_size P_total L beam_load beam_width F_y phi_c = none ∧
    (process_column_stack cases lvl_bearing).length = cases.length ∧
    (process_column_stack cases lvl_bearing).getD i LevelResult.noSection =
      LevelResult.noSection := by
  refine ⟨(selectFrom_none P_total L beam_load beam_width F_y phi_c hss_sizes).mpr hall,
    process_length cases lvl_bearing, ?_⟩
  rw [process_getD cases lvl_bearing i hi]
  simp only [processLevel]
  rw [hsel]

/-- Witness for C8: a two-level stack whose bottom level carries a 10000-kip
beam load; its section search is exhausted, processing continues. -/
theorem C8_exhaustion_witness :
    select_hss_size 10040 120 10000 3 46 0.9 = none ∧
    (process_column_stack [(120, 10000, 3, 12), (96, 40, 3.5, 14)] 500).length =
      ([(120, 10000, 3, 12), (96, 40, 3.5, 14)] : List Case).length ∧
    (process_column_stack [(120, 10000, 3, 12), (96, 40, 3.5, 14)] 500).getD 0
      LevelResult.noSection = LevelResult.noSection := by
  have hall := (selectFrom_none 10040 120 10000 3 46 0.9 hss_sizes).mp select_none_10040
  refine C8_exhaustion 10040 120 10000 3 46 0.9 [(120, 10000, 3, 12), (96, 40, 3.5, 14)] 500 0
    hall (by simp) ?_
  have hsum : sumLoads (([(120, 10000, 3, 12), (96, 40, 3.5, 14)] : List Case).drop 0) = 10040 := by
    simp [sumLoads, beamLoad]
    norm_num
  rw [hsum]
  exact select_none_10040

end

end Posts
